import Mathlib

/-!
# Verification of the flight-booking provider aggregation engine

Shallow embedding of the aggregation core of the `flight-booking`
repository, together with theorems settling the specification claims.

The repository contains two generations of the providers/aggregation code:

* the "legacy" generation: `internal/models/flight.go`,
  `internal/providers/{manager,provider1,provider2}.go` plus the shared
  `BaseProvider`, `internal/services/cache.go` (a `Get`/`Set` cache) and the
  aggregator `internal/usecases/route_service.go`;
* the "resty" generation: a `providers` package built on `resty` clients and
  a `GetOrLoad` cache (`internal/services/cache/cache.go`), with filtering
  (`ApplyFilters` with limit/offset) applied after merging.

Go `int` values are modelled as `Int`, `time.Duration`/timestamps as `Int`
(nanoseconds), Go errors as `Option String`/`Except String`, and `nil`
interface values as `Option.none`.
-/

set_option maxHeartbeats 1000000

/-- `models.FlightRoute` (internal/models/flight.go).  The same field layout
is used by the resty generation's `models.Route`.  `Timestamp`-free record;
`Equipment` is a nullable string pointer. -/
structure FlightRoute where
  Airline            : String
  SourceAirport      : String
  DestinationAirport : String
  CodeShare          : String
  Stops              : Int
  Equipment          : Option String
  Provider           : String
deriving DecidableEq, Repr

/-- `models.RouteFilters` of the legacy generation
(internal/models/flight.go): no pagination fields. -/
structure RouteFilters where
  Airline            : String
  SourceAirport      : String
  DestinationAirport : String
  MaxStops           : Option Int
deriving DecidableEq, Repr

/-- `models.RouteFilters` of the resty generation (used by
`provider.ApplyFilters` and the provider tests): adds `Limit`/`Offset`. -/
structure RouteFiltersV2 where
  Airline            : String
  SourceAirport      : String
  DestinationAirport : String
  MaxStops           : Option Int
  Limit              : Int
  Offset             : Int
deriving DecidableEq, Repr

/-- `getIntValue` (internal/models/flight.go): value of an int pointer or
`-1` if nil. -/
def getIntValue (ptr : Option Int) : Int :=
  match ptr with
  | none => -1
  | some v => v

/-- `models.CacheKey.String` (internal/models/flight.go):
`fmt.Sprintf("routes:%s:%s:%s:%d", airline, source, destination,
getIntValue(maxStops))`. -/
def cacheKeyString (f : RouteFilters) : String :=
  "routes:" ++ f.Airline ++ ":" ++ f.SourceAirport ++ ":" ++
    f.DestinationAirport ++ ":" ++ toString (getIntValue f.MaxStops)

/-- The cache key computed by the legacy `Provider1.GetRoutes`
(internal/providers/provider1.go line 39):
`fmt.Sprintf("provider1:%s", models.CacheKey{Filters: filters}.String())`. -/
def provider1CacheKey (f : RouteFilters) : String :=
  "provider1:" ++ cacheKeyString f

/-- The deduplication key built by `RouteServiceImpl.removeDuplicates`
(internal/usecases/route_service.go lines 240-245):
`fmt.Sprintf("%s-%s-%s-%s-%d", airline, source, destination, codeShare,
stops)`. -/
def dedupKey (r : FlightRoute) : String :=
  r.Airline ++ "-" ++ r.SourceAirport ++ "-" ++ r.DestinationAirport ++ "-" ++
    r.CodeShare ++ "-" ++ toString r.Stops

/-- The field tuple the spec says deduplication keys on:
`(airline, sourceAirport, destinationAirport, codeShare, stops)`. -/
def dedupFields (r : FlightRoute) : String × String × String × String × Int :=
  (r.Airline, r.SourceAirport, r.DestinationAirport, r.CodeShare, r.Stops)

/-- Loop of `removeDuplicates`: `seen` is the set of key strings already
inserted into the Go `map[string]bool`. -/
def removeDuplicatesGo (seen : List String) : List FlightRoute → List FlightRoute
  | [] => []
  | r :: rest =>
    if dedupKey r ∈ seen then
      removeDuplicatesGo seen rest
    else
      r :: removeDuplicatesGo (dedupKey r :: seen) rest

/-- `RouteServiceImpl.removeDuplicates` (internal/usecases/route_service.go
lines 234-258): iterate in order, keep a route iff its formatted key string
has not been seen yet. -/
def removeDuplicates (routes : List FlightRoute) : List FlightRoute :=
  removeDuplicatesGo [] routes

theorem removeDuplicatesGo_countP (k : String) :
    ∀ (seen : List String) (routes : List FlightRoute),
      (removeDuplicatesGo seen routes).countP (fun r => dedupKey r = k) =
        if k ∈ seen then 0
        else if routes.any (fun r => dedupKey r = k) then 1 else 0 := by
  intro seen routes
  induction routes generalizing seen with
  | nil => simp [removeDuplicatesGo]
  | cons r rest ih =>
    by_cases hr : dedupKey r ∈ seen
    · rw [removeDuplicatesGo, if_pos hr, ih seen]
      by_cases hs : k ∈ seen
      · simp [hs]
      · have hne : ¬ (dedupKey r = k) := fun h => hs (h ▸ hr)
        simp [hs, hne]
    · rw [removeDuplicatesGo, if_neg hr, List.countP_cons,
        ih (dedupKey r :: seen)]
      by_cases hk : dedupKey r = k
      · subst hk
        simp [hr, List.mem_cons]
      · have hmem : (k ∈ dedupKey r :: seen) ↔ k ∈ seen := by
          rw [List.mem_cons]
          constructor
          · rintro (h | h)
            · exact absurd h.symm hk
            · exact h
          · exact Or.inr
        by_cases hs : k ∈ seen
        · simp [hs, hmem.mpr hs, hk]
        · have : ¬ (k ∈ dedupKey r :: seen) := fun h => hs (hmem.mp h)
          simp [hs, this, hk]

theorem removeDuplicatesGo_first (seen : List String) (routes : List FlightRoute)
    (r : FlightRoute) (hr : r ∈ removeDuplicatesGo seen routes) :
    dedupKey r ∉ seen ∧
      routes.find? (fun x => dedupKey x = dedupKey r) = some r := by
  induction routes generalizing seen with
  | nil => simp [removeDuplicatesGo] at hr
  | cons x rest ih =>
    by_cases hx : dedupKey x ∈ seen
    · rw [removeDuplicatesGo, if_pos hx] at hr
      obtain ⟨hnot, hfind⟩ := ih seen hr
      refine ⟨hnot, ?_⟩
      have hne : ¬ (dedupKey x = dedupKey r) := fun h => hnot (h ▸ hx)
      rw [List.find?_cons]
      simp only [hne, decide_False]
      exact hfind
    · rw [removeDuplicatesGo, if_neg hx] at hr
      rcases List.mem_cons.mp hr with h | h
      · subst h
        refine ⟨hx, ?_⟩
        rw [List.find?_cons]
        simp
      · obtain ⟨hnot, hfind⟩ := ih (dedupKey x :: seen) h
        have hx' : dedupKey r ∉ seen := fun hs => hnot (List.mem_cons_of_mem _ hs)
        have hne : ¬ (dedupKey x = dedupKey r) := fun he =>
          hnot (he ▸ List.mem_cons_self _ _)
        refine ⟨hx', ?_⟩
        rw [List.find?_cons]
        simp only [hne, decide_False]
        exact hfind

/-- Characterization of `removeDuplicates`: the output holds exactly one
route per distinct *formatted key string* occurring in the input, and each
kept route is its key string's first occurrence in input order. -/
theorem removeDuplicates_spec (routes : List FlightRoute) :
    (∀ k : String,
      (removeDuplicates routes).countP (fun r => dedupKey r = k) =
        if routes.any (fun r => dedupKey r = k) then 1 else 0) ∧
    (∀ r ∈ removeDuplicates routes,
      routes.find? (fun x => dedupKey x = dedupKey r) = some r) := by
  constructor
  · intro k
    have h := removeDuplicatesGo_countP k [] routes
    simpa [removeDuplicates] using h
  · intro r hr
    exact (removeDuplicatesGo_first [] routes r hr).2

/-- Claim C3 (counterexample): deduplication is keyed on the formatted
string `airline-source-destination-codeShare-stops`, not on the field
tuple.  Two routes with distinct `(airline, sourceAirport,
destinationAirport, codeShare, stops)` tuples collide when a field contains
`"-"`: with airline `"AA-B"`/source `"C"` versus airline `"AA"`/source
`"B-C"`, both keys are `"AA-B-C-D-Y-0"`, the second route is dropped, and
no route in the merged result carries the second route's distinct key
tuple — refuting the claim that the result contains exactly one route for
each distinct tuple occurring in the input. -/
theorem claim_C3_counterexample :
    removeDuplicates
        [⟨"AA-B", "C", "D", "Y", 0, none, "p1"⟩,
         ⟨"AA", "B-C", "D", "Y", 0, none, "p2"⟩] =
      [⟨"AA-B", "C", "D", "Y", 0, none, "p1"⟩] ∧
    dedupFields ⟨"AA-B", "C", "D", "Y", 0, none, "p1"⟩ ≠
      dedupFields ⟨"AA", "B-C", "D", "Y", 0, none, "p2"⟩ ∧
    ¬ ∃ r ∈ removeDuplicates
        [⟨"AA-B", "C", "D", "Y", 0, none, "p1"⟩,
         ⟨"AA", "B-C", "D", "Y", 0, none, "p2"⟩],
        dedupFields r = dedupFields ⟨"AA", "B-C", "D", "Y", 0, none, "p2"⟩ := by
  refine ⟨by decide, by decide, by decide⟩

/-- Claim C3 (amended): for every input list, the merged result contains
exactly one route for each distinct formatted key string
`airline-source-destination-codeShare-stops` occurring in the input (distinct
field tuples whose formatted strings collide are conflated), and the kept
copy is the first occurrence of that key string in input order, so its
provider attribution is that of the first producer. -/
theorem claim_C3_dedup_first_occurrence (routes : List FlightRoute) :
    (∀ k : String,
      (removeDuplicates routes).countP (fun r => dedupKey r = k) =
        if routes.any (fun r => dedupKey r = k) then 1 else 0) ∧
    (∀ r ∈ removeDuplicates routes,
      routes.find? (fun x => dedupKey x = dedupKey r) = some r ∧
      (routes.find? (fun x => dedupKey x = dedupKey r)).map
          (fun x => x.Provider) = some r.Provider) := by
  obtain ⟨h1, h2⟩ := removeDuplicates_spec routes
  refine ⟨h1, fun r hr => ⟨h2 r hr, ?_⟩⟩
  rw [h2 r hr]
  rfl

/-- Claim C3 witness: instantiation of the kept-copy clause at a concrete
duplicate pair coming from two providers. -/
theorem claim_C3_witness :
    ([⟨"AA", "JFK", "LAX", "Y", 0, none, "p1"⟩,
      ⟨"AA", "JFK", "LAX", "Y", 0, none, "p2"⟩] :
        List FlightRoute).find?
      (fun x => dedupKey x = dedupKey ⟨"AA", "JFK", "LAX", "Y", 0, none, "p1"⟩) =
      some ⟨"AA", "JFK", "LAX", "Y", 0, none, "p1"⟩ :=
  ((claim_C3_dedup_first_occurrence
      [⟨"AA", "JFK", "LAX", "Y", 0, none, "p1"⟩,
       ⟨"AA", "JFK", "LAX", "Y", 0, none, "p2"⟩]).2
    ⟨"AA", "JFK", "LAX", "Y", 0, none, "p1"⟩ (by decide)).1

/-- Comparator passed to `sort.Slice` by `RouteServiceImpl.sortRoutes`
(internal/usecases/route_service.go lines 262-280): strict comparison by
airline, then source airport, then destination airport, then stops.
`codeShare` does not participate. -/
def lessRoute (a b : FlightRoute) : Bool :=
  if a.Airline ≠ b.Airline then decide (a.Airline < b.Airline)
  else if a.SourceAirport ≠ b.SourceAirport then
    decide (a.SourceAirport < b.SourceAirport)
  else if a.DestinationAirport ≠ b.DestinationAirport then
    decide (a.DestinationAirport < b.DestinationAirport)
  else decide (a.Stops < b.Stops)

/-- Composite sort key named by the spec:
`(airline, sourceAirport, destinationAirport, stops)`. -/
def sortKey (r : FlightRoute) : String × String × String × Int :=
  (r.Airline, r.SourceAirport, r.DestinationAirport, r.Stops)

/-- Lexicographic strict order on the spec's composite key. -/
def keyLt :
    String × String × String × Int → String × String × String × Int → Prop :=
  Prod.Lex (· < ·) (Prod.Lex (· < ·) (Prod.Lex (· < ·) (· < ·)))

/-- Contract of Go's `sort.Slice(routes, less)`: the result is some
permutation of the input in which no adjacent pair is strictly
out of order according to the comparator.  `sort.Slice` is documented as
*not* stable, so nothing beyond this is guaranteed; `sortRoutes` is
therefore modelled by this relation over its possible outputs. -/
def SortSliceGuarantee (input output : List FlightRoute) : Prop :=
  input.Perm output ∧ output.Chain' (fun a b => lessRoute b a = false)

/-- Stability of a sort step with respect to the composite key: routes
with any given key appear in the output in exactly the input (post-dedup)
order. -/
def StableFor (input output : List FlightRoute) : Prop :=
  ∀ k ∈ input.map sortKey,
    output.filter (fun r => sortKey r = k) =
      input.filter (fun r => sortKey r = k)

theorem lessRoute_iff_keyLt (a b : FlightRoute) :
    lessRoute a b = true ↔ keyLt (sortKey a) (sortKey b) := by
  unfold lessRoute keyLt sortKey
  rw [Prod.lex_def, Prod.lex_def, Prod.lex_def]
  by_cases h1 : a.Airline = b.Airline <;>
    by_cases h2 : a.SourceAirport = b.SourceAirport <;>
      by_cases h3 : a.DestinationAirport = b.DestinationAirport <;>
        simp only [h1, h2, h3, ne_eq, lt_self_iff_false, not_true_eq_false,
          not_false_eq_true, ite_true, ite_false, decide_eq_true_eq,
          eq_self_iff_true, true_and, false_and, false_or, or_false] <;>
        tauto

theorem lessRoute_total (a b : FlightRoute) :
    lessRoute b a = false ↔ (lessRoute a b = true ∨ sortKey a = sortKey b) := by
  unfold lessRoute sortKey
  have e1 : (b.Airline = a.Airline) ↔ (a.Airline = b.Airline) := eq_comm
  have e2 : (b.SourceAirport = a.SourceAirport) ↔
      (a.SourceAirport = b.SourceAirport) := eq_comm
  have e3 : (b.DestinationAirport = a.DestinationAirport) ↔
      (a.DestinationAirport = b.DestinationAirport) := eq_comm
  by_cases h1 : a.Airline = b.Airline <;>
    by_cases h2 : a.SourceAirport = b.SourceAirport <;>
      by_cases h3 : a.DestinationAirport = b.DestinationAirport <;>
        simp only [e1, e2, e3, h1, h2, h3, ne_eq, lt_self_iff_false,
          not_true_eq_false, not_false_eq_true, ite_true, ite_false,
          decide_eq_true_eq, decide_eq_false_iff_not, not_lt,
          le_iff_lt_or_eq, Prod.mk.injEq, eq_self_iff_true, true_and,
          false_and, false_or, or_false, and_false] <;>
        tauto

theorem chain'_pair {α : Type} {R : α → α → Prop} {a b : α} (h : R a b) :
    List.Chain' R [a, b] := by
  rw [List.chain'_cons]
  exact ⟨h, by simp⟩

/-- Claim C4 (counterexample): `sortRoutes` uses Go's `sort.Slice`, which
does not guarantee stability.  For the two-route input whose elements share
the composite key `("AA","JFK","LAX",0)` but differ in `codeShare`, the
swapped output satisfies everything `sort.Slice` guarantees (a permutation
with no adjacent pair out of comparator order) yet reverses the relative
order of the equal-key routes, so stability is not a property of the sort
step. -/
theorem claim_C4_counterexample :
    SortSliceGuarantee
        [⟨"AA", "JFK", "LAX", "Y", 0, none, "p1"⟩,
         ⟨"AA", "JFK", "LAX", "N", 0, none, "p2"⟩]
        [⟨"AA", "JFK", "LAX", "N", 0, none, "p2"⟩,
         ⟨"AA", "JFK", "LAX", "Y", 0, none, "p1"⟩] ∧
    ¬ StableFor
        [⟨"AA", "JFK", "LAX", "Y", 0, none, "p1"⟩,
         ⟨"AA", "JFK", "LAX", "N", 0, none, "p2"⟩]
        [⟨"AA", "JFK", "LAX", "N", 0, none, "p2"⟩,
         ⟨"AA", "JFK", "LAX", "Y", 0, none, "p1"⟩] := by
  constructor
  · exact ⟨by decide, chain'_pair (by simp [lessRoute])⟩
  · intro h
    have := h ("AA", "JFK", "LAX", 0) (by decide)
    revert this
    decide

/-- Claim C4 (amended): every output the sort step may produce is a
permutation of its input in which the spec's composite key
`(airline, sourceAirport, destinationAirport, stops)` is non-decreasing
(lexicographically strictly smaller or equal) over all adjacent pairs.
Stability for equal-key items is not guaranteed. -/
theorem claim_C4_sorted_permutation (input output : List FlightRoute)
    (h : SortSliceGuarantee input output) :
    output.Perm input ∧
      output.Chain'
        (fun a b => keyLt (sortKey a) (sortKey b) ∨ sortKey a = sortKey b) := by
  refine ⟨h.1.symm, h.2.imp ?_⟩
  intro a b hab
  have := (lessRoute_total a b).mp hab
  rcases this with h' | h'
  · exact Or.inl ((lessRoute_iff_keyLt a b).mp h')
  · exact Or.inr h'

/-- Claim C4 witness: the amended theorem applied to a concrete unsorted
input and a concrete sorted output. -/
theorem claim_C4_witness :
    ([⟨"AA", "JFK", "LAX", "Y", 0, none, "p1"⟩,
      ⟨"UA", "JFK", "SFO", "N", 1, none, "p2"⟩] : List FlightRoute).Perm
      [⟨"UA", "JFK", "SFO", "N", 1, none, "p2"⟩,
       ⟨"AA", "JFK", "LAX", "Y", 0, none, "p1"⟩] ∧
    ([⟨"AA", "JFK", "LAX", "Y", 0, none, "p1"⟩,
      ⟨"UA", "JFK", "SFO", "N", 1, none, "p2"⟩] : List FlightRoute).Chain'
      (fun a b => keyLt (sortKey a) (sortKey b) ∨ sortKey a = sortKey b) :=
  claim_C4_sorted_permutation
    [⟨"UA", "JFK", "SFO", "N", 1, none, "p2"⟩,
     ⟨"AA", "JFK", "LAX", "Y", 0, none, "p1"⟩]
    [⟨"AA", "JFK", "LAX", "Y", 0, none, "p1"⟩,
     ⟨"UA", "JFK", "SFO", "N", 1, none, "p2"⟩]
    ⟨by decide, chain'_pair (by simp [lessRoute]; decide)⟩

/-- `models.ProviderResponse` (internal/models/flight.go): routes, provider
name and optional failure from one provider call. -/
structure ProviderResponse where
  Routes   : List FlightRoute
  Provider : String
  Error    : Option String
deriving DecidableEq, Repr

/-- Collection loop of `RouteServiceImpl.GetRoutes`
(internal/usecases/route_service.go lines 64-77): responses with a non-nil
error are skipped (logged only); otherwise the routes are appended to the
aggregate and the provider name to `providersUsed`. -/
def collectResponses : List ProviderResponse → List FlightRoute × List String
  | [] => ([], [])
  | resp :: rest =>
    let acc := collectResponses rest
    if resp.Error ≠ none then acc
    else (resp.Routes ++ acc.1, resp.Provider :: acc.2)

theorem collectResponses_eq (rs : List ProviderResponse) :
    collectResponses rs =
      ((rs.filter (fun r => r.Error = none)).bind (fun r => r.Routes),
       (rs.filter (fun r => r.Error = none)).map (fun r => r.Provider)) := by
  induction rs with
  | nil => rfl
  | cons resp rest ih =>
    rw [collectResponses, ih]
    by_cases h : resp.Error = none
    · simp [h]
    · simp [h]

/-- `models.RoutesResponse` together with its `ResponseMetadata`
(internal/models/flight.go); the timestamp is elided. -/
structure RoutesResponse where
  Data          : List FlightRoute
  TotalCount    : Nat
  ProvidersUsed : List String
  CacheHit      : Bool
deriving DecidableEq, Repr

/-- `RouteServiceImpl.GetRoutes` (internal/usecases/route_service.go lines
35-103), parameterized by the aggregate-cache lookup result (`cache.Get`
on the aggregated key) and by the provider responses collected from
`GetRoutesFromAllProviders`.  `sorted` is the output of the
`sort.Slice`-based sort step, constrained separately by
`SortSliceGuarantee`; the trailing `cache.Set` of the fresh response is not
part of the returned value and is elided.  The second component is the
request-level error, which this code path always leaves nil. -/
def getRoutesService (cached : Option RoutesResponse)
    (responses : List ProviderResponse) (sorted : List FlightRoute) :
    RoutesResponse × Option String :=
  match cached with
  | some resp => ({ resp with CacheHit := true }, none)
  | none =>
    ({ Data := sorted, TotalCount := sorted.length,
       ProvidersUsed := (collectResponses responses).2,
       CacheHit := false }, none)

/-- Possible behaviours of `RouteServiceImpl.GetRoutes`: some sort output
permitted by `sort.Slice` applied to the deduplicated aggregate produces
the returned response. -/
def GetRoutesBehavior (cached : Option RoutesResponse)
    (responses : List ProviderResponse)
    (out : RoutesResponse × Option String) : Prop :=
  ∃ sorted,
    SortSliceGuarantee (removeDuplicates (collectResponses responses).1)
      sorted ∧
    out = getRoutesService cached responses sorted

/-- Claim C1: on an aggregate-cache miss, the aggregator returns the
(deduplicated, sorted) routes of exactly the succeeding providers,
`providersUsed` lists exactly the succeeding provider names, and the
request-level error is nil; in particular when every provider fails the
route list and `providersUsed` are both empty, still with no error. -/
theorem claim_C1_partial_failure (responses : List ProviderResponse)
    (out : RoutesResponse × Option String)
    (h : GetRoutesBehavior none responses out) :
    out.2 = none ∧
    out.1.ProvidersUsed =
      (responses.filter (fun r => r.Error = none)).map (fun r => r.Provider) ∧
    out.1.Data.Perm
      (removeDuplicates
        ((responses.filter (fun r => r.Error = none)).bind
          (fun r => r.Routes))) ∧
    ((∀ r ∈ responses, r.Error ≠ none) →
      out.1.Data = [] ∧ out.1.ProvidersUsed = []) := by
  obtain ⟨sorted, hsort, hout⟩ := h
  subst hout
  have hagg := collectResponses_eq responses
  refine ⟨rfl, ?_, ?_, ?_⟩
  · simp [getRoutesService, hagg]
  · have hperm := hsort.1.symm
    rw [hagg] at hperm
    simpa [getRoutesService] using hperm
  · intro hall
    have hfil : responses.filter (fun r => r.Error = none) = [] := by
      rw [List.filter_eq_nil]
      intro r hr
      simpa using hall r hr
    have hnil : (collectResponses responses).1 = [] := by
      rw [hagg, hfil]
      rfl
    have : sorted = [] := by
      have := hsort.1.symm
      rw [hnil] at this
      exact this.eq_nil
    simp [getRoutesService, hagg, hfil, this]

/-- Claim C1 witness: one failing and one succeeding provider; the
aggregate carries the succeeding provider's route and name and no
request-level error. -/
theorem claim_C1_witness :
    (getRoutesService none
        [⟨[⟨"AA", "JFK", "LAX", "Y", 0, none, "provider2"⟩], "provider2", none⟩,
         ⟨[], "provider1", some "timeout"⟩]
        [⟨"AA", "JFK", "LAX", "Y", 0, none, "provider2"⟩]).2 = none ∧
    (getRoutesService none
        [⟨[⟨"AA", "JFK", "LAX", "Y", 0, none, "provider2"⟩], "provider2", none⟩,
         ⟨[], "provider1", some "timeout"⟩]
        [⟨"AA", "JFK", "LAX", "Y", 0, none, "provider2"⟩]).1.ProvidersUsed =
      (([⟨[⟨"AA", "JFK", "LAX", "Y", 0, none, "provider2"⟩], "provider2", none⟩,
         ⟨[], "provider1", some "timeout"⟩] :
          List ProviderResponse).filter (fun r => r.Error = none)).map
        (fun r => r.Provider) ∧
    (getRoutesService none
        [⟨[⟨"AA", "JFK", "LAX", "Y", 0, none, "provider2"⟩], "provider2", none⟩,
         ⟨[], "provider1", some "timeout"⟩]
        [⟨"AA", "JFK", "LAX", "Y", 0, none, "provider2"⟩]).1.Data.Perm
      (removeDuplicates
        ((([⟨[⟨"AA", "JFK", "LAX", "Y", 0, none, "provider2"⟩], "provider2", none⟩,
            ⟨[], "provider1", some "timeout"⟩] :
            List ProviderResponse).filter (fun r => r.Error = none)).bind
          (fun r => r.Routes))) := by
  have h := claim_C1_partial_failure
    [⟨[⟨"AA", "JFK", "LAX", "Y", 0, none, "provider2"⟩], "provider2", none⟩,
     ⟨[], "provider1", some "timeout"⟩]
    (getRoutesService none
      [⟨[⟨"AA", "JFK", "LAX", "Y", 0, none, "provider2"⟩], "provider2", none⟩,
       ⟨[], "provider1", some "timeout"⟩]
      [⟨"AA", "JFK", "LAX", "Y", 0, none, "provider2"⟩])
    ⟨[⟨"AA", "JFK", "LAX", "Y", 0, none, "provider2"⟩],
      ⟨by decide, by simp⟩, rfl⟩
  exact ⟨h.1, h.2.1, h.2.2.1⟩

/-- `ProviderManager.GetProviderStatuses` (internal/providers/manager.go
lines 90-105) over a list of health-probe outcomes: a provider maps to
`"unhealthy"` when its `IsHealthy` probe returned an error, `"healthy"`
otherwise.  A probe outcome is `(name, ok)` with `ok = true` meaning the
probe returned no error. -/
def providerStatuses (probes : List (String × Bool)) : List (String × String) :=
  probes.map (fun p => (p.1, if p.2 then "healthy" else "unhealthy"))

/-- Overall-status derivation of `RouteServiceImpl.GetHealth`
(internal/usecases/route_service.go lines 204-224): start from
`"healthy"`, downgrade to `"degraded"` if any provider is unhealthy, and
override with `"unhealthy"` if no provider is healthy. -/
def overallStatus (statuses : List (String × String)) : String :=
  let afterDegraded :=
    if statuses.any (fun s => s.2 = "unhealthy") then "degraded" else "healthy"
  if statuses.any (fun s => s.2 = "healthy") then afterDegraded
  else "unhealthy"

/-- `models.HealthResponse` (internal/models/flight.go); timestamp elided. -/
structure HealthResponse where
  Status    : String
  Providers : List (String × String)
deriving DecidableEq, Repr

/-- `RouteServiceImpl.GetHealth` (internal/usecases/route_service.go lines
185-231): per-provider statuses from the probes, the derived overall
status, and a nil error. -/
def getHealth (probes : List (String × Bool)) : HealthResponse × Option String :=
  ({ Status := overallStatus (providerStatuses probes),
     Providers := providerStatuses probes }, none)

/-- Claim C9 (counterexample): with zero providers every provider is
vacuously healthy, yet `GetHealth` reports the overall status
`"unhealthy"` (the no-healthy-provider override fires), contradicting the
claim's `healthy when all providers are healthy` clause. -/
theorem claim_C9_counterexample :
    (([] : List (String × Bool)).all (fun p => p.2) = true) ∧
    (getHealth []).1.Status = "unhealthy" ∧
    (getHealth []).1.Status ≠ "healthy" := by
  refine ⟨rfl, rfl, by decide⟩

theorem providerStatuses_any_unhealthy (probes : List (String × Bool)) :
    ((providerStatuses probes).any (fun s => s.2 = "unhealthy")) =
      probes.any (fun p => !p.2) := by
  induction probes with
  | nil => rfl
  | cons p rest ih =>
    rcases p with ⟨n, b⟩
    cases b <;> simp_all [providerStatuses]

theorem providerStatuses_any_healthy (probes : List (String × Bool)) :
    ((providerStatuses probes).any (fun s => s.2 = "healthy")) =
      probes.any (fun p => p.2) := by
  induction probes with
  | nil => rfl
  | cons p rest ih =>
    rcases p with ⟨n, b⟩
    cases b <;> simp_all [providerStatuses]

/-- Claim C9 (amended): `GetHealth` reports each provider healthy or
unhealthy according to its probe, and derives the overall status as:
healthy when there is at least one provider and all are healthy, degraded
when some but not all are healthy, and unhealthy when no provider is
healthy (including when there are no providers). -/
theorem claim_C9_health_statuses (probes : List (String × Bool)) :
    (getHealth probes).2 = none ∧
    (getHealth probes).1.Providers =
      probes.map (fun p => (p.1, if p.2 then "healthy" else "unhealthy")) ∧
    (probes ≠ [] → (∀ p ∈ probes, p.2 = true) →
      (getHealth probes).1.Status = "healthy") ∧
    ((∃ p ∈ probes, p.2 = true) → (∃ p ∈ probes, p.2 = false) →
      (getHealth probes).1.Status = "degraded") ∧
    ((∀ p ∈ probes, p.2 = false) →
      (getHealth probes).1.Status = "unhealthy") := by
  refine ⟨rfl, rfl, ?_, ?_, ?_⟩
  · intro hne hall
    obtain ⟨p0, hp0⟩ := List.exists_mem_of_ne_nil probes hne
    have h1 : probes.any (fun p => !p.2) = false := by
      rw [List.any_eq_false]
      intro p hp
      simp [hall p hp]
    have h2 : probes.any (fun p => p.2) = true :=
      List.any_eq_true.mpr ⟨p0, hp0, hall p0 hp0⟩
    show overallStatus (providerStatuses probes) = "healthy"
    rw [overallStatus]
    rw [providerStatuses_any_healthy, providerStatuses_any_unhealthy, h1, h2]
    rfl
  · rintro ⟨p1, hp1, hok⟩ ⟨p2, hp2, hbad⟩
    have h1 : probes.any (fun p => !p.2) = true :=
      List.any_eq_true.mpr ⟨p2, hp2, by simp [hbad]⟩
    have h2 : probes.any (fun p => p.2) = true :=
      List.any_eq_true.mpr ⟨p1, hp1, hok⟩
    show overallStatus (providerStatuses probes) = "degraded"
    rw [overallStatus]
    rw [providerStatuses_any_healthy, providerStatuses_any_unhealthy, h1, h2]
    rfl
  · intro hall
    have h2 : probes.any (fun p => p.2) = false := by
      rw [List.any_eq_false]
      intro p hp
      simp [hall p hp]
    show overallStatus (providerStatuses probes) = "unhealthy"
    rw [overallStatus]
    rw [providerStatuses_any_healthy, h2]
    rfl

/-- Claim C9 witness: one healthy and one unhealthy provider yield the
overall status `"degraded"`. -/
theorem claim_C9_witness :
    (getHealth [("provider1", true), ("provider2", false)]).1.Status =
      "degraded" :=
  (claim_C9_health_statuses [("provider1", true), ("provider2", false)]).2.2.2.1
    ⟨("provider1", true), by decide, rfl⟩
    ⟨("provider2", false), by decide, rfl⟩

/-- Match conditions of `provider.ApplyFilters` (resty generation): a route
survives the four `continue` checks iff each provided (non-empty /
non-nil) filter field matches exactly and `stops <= *maxStops`. -/
def matchesFilters (f : RouteFiltersV2) (r : FlightRoute) : Bool :=
  (f.Airline = "" || r.Airline = f.Airline) &&
  ((f.SourceAirport = "" || r.SourceAirport = f.SourceAirport) &&
  ((f.DestinationAirport = "" || r.DestinationAirport = f.DestinationAirport) &&
  (match f.MaxStops with
   | none => true
   | some m => !(r.Stops > m))))

/-- Loop of `provider.ApplyFilters`: `filtered` is the accumulator,
`skipped` the number of matching routes dropped for the offset so far.
The `break` on reaching the limit is modelled by returning `filtered`; the
offset check runs after the break check, exactly as in the source. -/
def applyFiltersLoop (f : RouteFiltersV2) :
    List FlightRoute → List FlightRoute → Int → List FlightRoute
  | [], filtered, _ => filtered
  | r :: rest, filtered, skipped =>
    if matchesFilters f r = false then
      applyFiltersLoop f rest filtered skipped
    else if 0 < f.Limit ∧ f.Limit ≤ (filtered.length : Int) then
      filtered
    else if 0 < f.Offset ∧ skipped < f.Offset then
      applyFiltersLoop f rest filtered (skipped + 1)
    else
      applyFiltersLoop f rest (filtered ++ [r]) skipped

/-- `provider.ApplyFilters` (resty generation, part of the providers
package): empty input returned as is; a zero limit defaults to 100; then
the filter/limit/offset loop runs with empty accumulator and zero skip
count. -/
def applyFilters (f : RouteFiltersV2) (routes : List FlightRoute) :
    List FlightRoute :=
  if routes = [] then routes
  else
    applyFiltersLoop (if f.Limit = 0 then { f with Limit := 100 } else f)
      routes [] 0

theorem applyFiltersLoop_eq (f : RouteFiltersV2) (hL : 0 < f.Limit)
    (hO : 0 ≤ f.Offset) :
    ∀ (rest filtered : List FlightRoute) (skipped : Int),
      0 ≤ skipped → skipped ≤ f.Offset →
      applyFiltersLoop f rest filtered skipped =
        filtered ++
          (((rest.filter (fun r => matchesFilters f r)).drop
              (f.Offset - skipped).toNat).take
            (f.Limit - (filtered.length : Int)).toNat) := by
  intro rest
  induction rest with
  | nil =>
    intro filtered skipped _ _
    simp [applyFiltersLoop]
  | cons r rest ih =>
    intro filtered skipped h0 hsk
    by_cases hm : matchesFilters f r = false
    · rw [applyFiltersLoop, if_pos hm, ih filtered skipped h0 hsk,
        List.filter_cons_of_neg (by simp [hm])]
    · have hm' : matchesFilters f r = true := by
        cases h : matchesFilters f r
        · exact absurd h hm
        · rfl
      rw [applyFiltersLoop, if_neg hm, List.filter_cons_of_pos (by simp [hm'])]
      by_cases hbreak : 0 < f.Limit ∧ f.Limit ≤ (filtered.length : Int)
      · rw [if_pos hbreak]
        have : (f.Limit - (filtered.length : Int)).toNat = 0 := by omega
        simp [this]
      · rw [if_neg hbreak]
        have hlen : (filtered.length : Int) < f.Limit := by
          rcases not_and_or.mp hbreak with h | h
          · exact absurd hL h
          · omega
        by_cases hskip : 0 < f.Offset ∧ skipped < f.Offset
        · rw [if_pos hskip]
          rw [ih filtered (skipped + 1) (by omega) (by omega)]
          have hd : (f.Offset - skipped).toNat =
              (f.Offset - (skipped + 1)).toNat + 1 := by omega
          rw [hd, List.drop_succ_cons]
        · rw [if_neg hskip]
          rw [ih (filtered ++ [r]) skipped h0 hsk]
          have hdz : (f.Offset - skipped).toNat = 0 := by
            rcases not_and_or.mp hskip with h | h <;> omega
          have ht : (f.Limit - (filtered.length : Int)).toNat =
              (f.Limit - ((filtered ++ [r]).length : Int)).toNat + 1 := by
            simp only [List.length_append, List.length_singleton]
            push_cast
            omega
          rw [hdz, ht]
          simp only [List.drop_zero]
          rw [List.take_succ_cons]
          simp

/-- Effective limit of `provider.ApplyFilters`: a zero (unset) limit
defaults to 100. -/
def effLimit (f : RouteFiltersV2) : Int :=
  if f.Limit = 0 then 100 else f.Limit

/-- Claim C5 (counterexample): the output-size bound fails for a negative
limit.  With `limit = -1` (a representable `RouteFilters` value) the limit
check `filters.Limit > 0 && len(filtered) >= filters.Limit` never fires,
so one matching route is returned even though the claim demands
`length <= limit = -1`. -/
theorem claim_C5_counterexample :
    applyFilters ⟨"", "", "", none, -1, 0⟩
        [⟨"AA", "JFK", "LAX", "Y", 0, none, "p1"⟩] =
      [⟨"AA", "JFK", "LAX", "Y", 0, none, "p1"⟩] ∧
    ¬ (((applyFilters ⟨"", "", "", none, -1, 0⟩
          [⟨"AA", "JFK", "LAX", "Y", 0, none, "p1"⟩]).length : Int) ≤
        (-1 : Int)) := by
  constructor
  · rfl
  · decide

/-- Claim C5 (amended): for filters with non-negative limit and offset the
filtered output equals `take effLimit (drop offset matching)` where
`matching` is the in-order list of routes passing the airline / source /
destination / maxStops checks and `effLimit` is the limit with 0
defaulting to 100.  Consequently the output holds only matching routes,
its length is at most the effective limit, and exactly
`min(offset, number of matching routes)` matching routes are skipped
before the first returned one. -/
theorem claim_C5_filter_pagination (f : RouteFiltersV2)
    (routes : List FlightRoute) (hL : 0 ≤ f.Limit) (hO : 0 ≤ f.Offset) :
    applyFilters f routes =
      ((routes.filter (fun r => matchesFilters f r)).drop
        f.Offset.toNat).take (effLimit f).toNat ∧
    (∀ r ∈ applyFilters f routes, matchesFilters f r = true) ∧
    ((applyFilters f routes).length : Int) ≤ effLimit f ∧
    (routes.filter (fun r => matchesFilters f r)).take
        (f.Offset.toNat + (effLimit f).toNat) =
      (routes.filter (fun r => matchesFilters f r)).take f.Offset.toNat ++
        applyFilters f routes := by
  have hmain : applyFilters f routes =
      ((routes.filter (fun r => matchesFilters f r)).drop
        f.Offset.toNat).take (effLimit f).toNat := by
    by_cases hnil : routes = []
    · subst hnil
      simp [applyFilters]
    · rw [applyFilters, if_neg hnil]
      by_cases h0 : f.Limit = 0
      · rw [if_pos h0]
        have h := applyFiltersLoop_eq { f with Limit := 100 }
          (by norm_num) hO routes [] 0 le_rfl hO
        simpa [effLimit, h0] using h
      · rw [if_neg h0]
        have h := applyFiltersLoop_eq f (by omega) hO routes [] 0 le_rfl hO
        simpa [effLimit, h0] using h
  refine ⟨hmain, ?_, ?_, ?_⟩
  · intro r hr
    rw [hmain] at hr
    have := List.mem_filter.mp
      (List.drop_subset _ _ (List.take_subset _ _ hr))
    simpa using this.2
  · rw [hmain]
    have h1 : (((routes.filter (fun r => matchesFilters f r)).drop
        f.Offset.toNat).take (effLimit f).toNat).length ≤
        (effLimit f).toNat := by
      simpa using List.length_take_le _ _
    have h2 : (0 : Int) ≤ effLimit f := by
      unfold effLimit
      by_cases h0 : f.Limit = 0 <;> simp [h0] <;> omega
    omega
  · rw [hmain, List.take_add]

/-- Claim C5 witness: airline filter `"AA"`, limit 1, offset 1 on a
three-route list — the theorem's drop/take identity at a concrete
instance. -/
theorem claim_C5_witness :
    applyFilters ⟨"AA", "", "", none, 1, 1⟩
        [⟨"AA", "JFK", "LAX", "Y", 0, none, "p1"⟩,
         ⟨"UA", "JFK", "SFO", "N", 1, none, "p2"⟩,
         ⟨"AA", "LAX", "JFK", "N", 2, none, "p1"⟩] =
      ((([⟨"AA", "JFK", "LAX", "Y", 0, none, "p1"⟩,
          ⟨"UA", "JFK", "SFO", "N", 1, none, "p2"⟩,
          ⟨"AA", "LAX", "JFK", "N", 2, none, "p1"⟩] :
            List FlightRoute).filter
          (fun r => matchesFilters ⟨"AA", "", "", none, 1, 1⟩ r)).drop
        (1 : Int).toNat).take (effLimit ⟨"AA", "", "", none, 1, 1⟩).toNat :=
  (claim_C5_filter_pagination ⟨"AA", "", "", none, 1, 1⟩
    [⟨"AA", "JFK", "LAX", "Y", 0, none, "p1"⟩,
     ⟨"UA", "JFK", "SFO", "N", 1, none, "p2"⟩,
     ⟨"AA", "LAX", "JFK", "N", 2, none, "p1"⟩]
    (by decide) (by decide)).1

/-- `config.CacheConfig` as consumed by the `GetOrLoad` cache
(internal/services/cache/cache.go): the enabled flag and the default TTL
(`time.Duration`, modelled in nanoseconds); the cleanup interval only
drives the background sweep and is elided. -/
structure CacheConfig where
  Enabled    : Bool
  DefaultTTL : Int
deriving DecidableEq, Repr

/-- State of the go-cache instance inside `inMemoryCache`: an association
list from key to `(value, expiration)`, newest binding first.  A zero
expiration means "never expires", as in go-cache. -/
structure InMemoryCache (α : Type) where
  cfg   : CacheConfig
  items : List (String × α × Int)
deriving DecidableEq, Repr

/-- go-cache `Get`: a hit iff the key is bound and not expired; an entry is
expired iff its expiration is positive and strictly less than the current
time (`time.Now().UnixNano() > item.Expiration`). -/
def cacheGet {α : Type} (c : InMemoryCache α) (now : Int) (key : String) :
    Option α :=
  match c.items.find? (fun it => it.1 = key) with
  | none => none
  | some it => if 0 < it.2.2 ∧ it.2.2 < now then none else some it.2.1

/-- go-cache `Set` with `d = cfg.DefaultTTL` (as called by `GetOrLoad`): a
positive TTL stores expiration `now + ttl`; otherwise the entry never
expires. -/
def cacheSet {α : Type} (c : InMemoryCache α) (now : Int) (key : String)
    (v : α) : InMemoryCache α :=
  { c with items :=
      (key, v,
        if 0 < c.cfg.DefaultTTL then now + c.cfg.DefaultTTL else 0) ::
      c.items }

/-- `inMemoryCache.GetOrLoad` (internal/services/cache/cache.go lines
27-47).  Returns `(result, new state, loader invoked?)`; the boolean is
instrumentation observing whether the `loader()` call was reached.  A
disabled cache returns `(nil, nil)` immediately.  On a live hit the value
is returned without the loader; on a miss the loader runs, its error is
propagated uncached, and its success is stored under the configured
default TTL. -/
def getOrLoad {α : Type} (c : InMemoryCache α) (now : Int) (key : String)
    (loader : Except String α) :
    Except String (Option α) × InMemoryCache α × Bool :=
  if c.cfg.Enabled = false then (.ok none, c, false)
  else
    match cacheGet c now key with
    | some v => (.ok (some v), c, false)
    | none =>
      match loader with
      | .error e => (.error e, c, true)
      | .ok v => (.ok (some v), cacheSet c now key v, true)

theorem cacheGet_none_mono {α : Type} (c : InMemoryCache α)
    (now now' : Int) (key : String) (h : cacheGet c now key = none)
    (hle : now ≤ now') : cacheGet c now' key = none := by
  unfold cacheGet at h ⊢
  cases hf : c.items.find? (fun it => it.1 = key) with
  | none => rfl
  | some it =>
    rw [hf] at h
    replace h : (if 0 < it.2.2 ∧ it.2.2 < now then none
        else some it.2.1) = (none : Option α) := h
    show (if 0 < it.2.2 ∧ it.2.2 < now' then none
        else some it.2.1) = (none : Option α)
    by_cases hcond : 0 < it.2.2 ∧ it.2.2 < now
    · rw [if_pos (by omega)]
    · rw [if_neg hcond] at h
      exact absurd h (by simp)

/-- Claim C2: for an enabled cache with a positive configured TTL, a live
entry is returned without invoking the loader; on a miss a successful
loader result is stored under the key with expiry `now + ttl` and
returned; a failing loader propagates its error, leaves the cache
unchanged, and any immediately following call (at the same or a later
time) invokes the loader again. -/
theorem claim_C2_get_or_load {α : Type} (c : InMemoryCache α) (now : Int)
    (key : String) (loader : Except String α)
    (hen : c.cfg.Enabled = true) (httl : 0 < c.cfg.DefaultTTL) :
    (∀ v, cacheGet c now key = some v →
      getOrLoad c now key loader = (.ok (some v), c, false)) ∧
    (∀ v, cacheGet c now key = none → loader = .ok v →
      getOrLoad c now key loader =
        (.ok (some v),
         { c with items := (key, v, now + c.cfg.DefaultTTL) :: c.items },
         true)) ∧
    (∀ e, cacheGet c now key = none → loader = .error e →
      getOrLoad c now key loader = (.error e, c, true) ∧
      ∀ now', now ≤ now' → ∀ loader' : Except String α,
        (getOrLoad c now' key loader').2.2 = true) := by
  refine ⟨?_, ?_, ?_⟩
  · intro v hv
    rw [getOrLoad.eq_def, if_neg (by simp [hen]), hv]
  · intro v hmiss hld
    rw [getOrLoad.eq_def, if_neg (by simp [hen]), hmiss, hld]
    simp [cacheSet, httl]
  · intro e hmiss hld
    constructor
    · rw [getOrLoad.eq_def, if_neg (by simp [hen]), hmiss, hld]
    · intro now' hle loader'
      have hmiss' := cacheGet_none_mono c now now' key hmiss hle
      rw [getOrLoad.eq_def, if_neg (by simp [hen]), hmiss']
      cases loader' <;> rfl

/-- Claim C2 witness: a miss on an empty enabled cache with TTL 5 at time
10 stores the loaded value with expiry 15 and reports the loader
invocation. -/
theorem claim_C2_witness :
    getOrLoad (α := Nat) ⟨⟨true, 5⟩, []⟩ 10 "provider1_routes" (.ok 42) =
      (.ok (some 42), ⟨⟨true, 5⟩, [("provider1_routes", 42, 10 + 5)]⟩,
       true) :=
  (claim_C2_get_or_load ⟨⟨true, 5⟩, []⟩ 10 "provider1_routes" (.ok 42)
    rfl (by decide)).2.1 42 rfl rfl

/-- Modelled from the spec: the `internal/services/cache` implementation
used by the resty-based providers package takes a per-call TTL
(`GetOrLoad(key, ttl, loader)`, per its interface, callers and test mock)
but its implementation file is not under src.  Behaviour follows spec
§4.1 — a live (non-expired) entry is returned without invoking the
loader; otherwise the loader runs, a success is stored under the key with
expiry `now + ttl` and returned, a failure is returned uncached — plus
the enabled gate of the in-src `GetOrLoad` cache implementation
(a disabled cache returns `(nil, nil)` without invoking the loader).
State is an association list from key to `(value, expiresAt)`, newest
binding first; an entry is live iff `now ≤ expiresAt`. -/
structure SpecCache (α : Type) where
  Enabled : Bool
  items   : List (String × α × Int)
deriving DecidableEq, Repr

/-- Modelled from the spec: lookup in the per-call-TTL cache, returning a
value only while it is live. -/
def specCacheGet {α : Type} (c : SpecCache α) (now : Int) (key : String) :
    Option α :=
  match c.items.find? (fun it => it.1 = key) with
  | none => none
  | some it => if now ≤ it.2.2 then some it.2.1 else none

/-- Modelled from the spec: `GetOrLoad(key, ttl, loader)` of the
providers' cache.  Returns `(result, new state, loader invoked?)`. -/
def specGetOrLoad {α : Type} (c : SpecCache α) (now : Int) (key : String)
    (ttl : Int) (loader : Except String α) :
    Except String (Option α) × SpecCache α × Bool :=
  if c.Enabled = false then (.ok none, c, false)
  else
    match specCacheGet c now key with
    | some v => (.ok (some v), c, false)
    | none =>
      match loader with
      | .error e => (.error e, c, true)
      | .ok v =>
        (.ok (some v), { c with items := (key, v, now + ttl) :: c.items },
         true)

/-- Loader closure of `routesFromProvider1` (resty generation): the
upstream fetch outcome is `resp` — either a transport error or a decoded
`(statusCode, routes)` pair; a non-200 status becomes the
`provider1 request failed` error (response body elided from the message),
otherwise the decoded routes are returned unchanged. -/
def provider1Loader (resp : Except String (Int × List FlightRoute)) :
    Except String (List FlightRoute) :=
  match resp with
  | .error e => .error e
  | .ok sr => if sr.1 ≠ 200 then .error "provider1 request failed" else .ok sr.2

/-- Loader closure of `routesFromProvider2` (resty generation). -/
def provider2Loader (resp : Except String (Int × List FlightRoute)) :
    Except String (List FlightRoute) :=
  match resp with
  | .error e => .error e
  | .ok sr => if sr.1 ≠ 200 then .error "provider2 request failed" else .ok sr.2

/-- `provider.routesFromProvider1` (resty generation): `GetOrLoad` under
the constant key `"provider1_routes"` with the provider's configured TTL;
a cache/loader error is wrapped; a `nil` payload fails the
`data.([]models.Route)` type assertion, yielding the
`unexpected data type` error.  Returns `(result, cache, loader
invoked?)`. -/
def routesFromProvider1 (c : SpecCache (List FlightRoute)) (now ttl : Int)
    (resp : Except String (Int × List FlightRoute)) :
    Except String (List FlightRoute) × SpecCache (List FlightRoute) × Bool :=
  let out := specGetOrLoad c now "provider1_routes" ttl (provider1Loader resp)
  match out.1 with
  | .error e =>
    (.error ("error fetching routes from cache or provider1: " ++ e),
     out.2.1, out.2.2)
  | .ok (some routes) => (.ok routes, out.2.1, out.2.2)
  | .ok none =>
    (.error "unexpected data type from cache for provider1 routes",
     out.2.1, out.2.2)

/-- `provider.routesFromProvider2` (resty generation). -/
def routesFromProvider2 (c : SpecCache (List FlightRoute)) (now ttl : Int)
    (resp : Except String (Int × List FlightRoute)) :
    Except String (List FlightRoute) × SpecCache (List FlightRoute) × Bool :=
  let out := specGetOrLoad c now "provider2_routes" ttl (provider2Loader resp)
  match out.1 with
  | .error e =>
    (.error ("error fetching routes from cache or provider2: " ++ e),
     out.2.1, out.2.2)
  | .ok (some routes) => (.ok routes, out.2.1, out.2.2)
  | .ok none =>
    (.error "unexpected data type from cache for provider2 routes",
     out.2.1, out.2.2)

/-- Result of the resty generation's `provider.GetRoutes`: the returned
routes, the request-level error (always nil in this code path), the cache
state after both provider fetches, and the two loader-invocation flags. -/
structure ProviderFetchResult where
  routes : List FlightRoute
  err    : Option String
  cache  : SpecCache (List FlightRoute)
  load1  : Bool
  load2  : Bool
deriving DecidableEq, Repr

/-- `provider.GetRoutes` (resty generation, second version in the
providers package): provider errors are logged and degrade that
provider's contribution to the empty list; the two route lists are
appended and `ApplyFilters` is applied; the returned error is nil. -/
def getRoutesV2 (f : RouteFiltersV2) (c : SpecCache (List FlightRoute))
    (now ttl1 ttl2 : Int)
    (resp1 resp2 : Except String (Int × List FlightRoute)) :
    ProviderFetchResult :=
  let o1 := routesFromProvider1 c now ttl1 resp1
  let routes1 := match o1.1 with | .ok rs => rs | .error _ => []
  let o2 := routesFromProvider2 o1.2.1 now ttl2 resp2
  let routes2 := match o2.1 with | .ok rs => rs | .error _ => []
  { routes := applyFilters f (routes1 ++ routes2), err := none,
    cache := o2.2.1, load1 := o1.2.2, load2 := o2.2.2 }

/-- `models.FlightRoute.Validate` (internal/models/flight.go lines
116-138): required fields non-empty and non-negative stops; the first
violated rule's error is returned. -/
def validateRoute (r : FlightRoute) : Option String :=
  if r.Airline = "" then some "airline is required"
  else if r.SourceAirport = "" then some "source airport is required"
  else if r.DestinationAirport = "" then some "destination airport is required"
  else if r.CodeShare = "" then some "code share is required"
  else if r.Stops < 0 then some "stops must be non-negative"
  else none

/-- `BaseProvider.validateAndProcessRoutes` (legacy generation): invalid
records are skipped individually; each surviving record has its
`Provider` field overwritten with the adapter's name. -/
def validateAndProcessRoutes (name : String) :
    List FlightRoute → List FlightRoute
  | [] => []
  | r :: rest =>
    if (validateRoute r).isSome then validateAndProcessRoutes name rest
    else { r with Provider := name } :: validateAndProcessRoutes name rest

/-- Claim C7 (counterexample): the resty-generation adapter does not stamp
the provider field.  On a cache miss with a 200 upstream response whose
payload carries `provider: "evil"`, `routesFromProvider1` returns the
decoded routes unchanged, so the upstream-supplied provider value
survives and differs from the adapter's name. -/
theorem claim_C7_counterexample :
    (routesFromProvider1 ⟨true, []⟩ 0 60
        (.ok (200, [⟨"AA", "JFK", "LAX", "Y", 0, none, "evil"⟩]))).1 =
      .ok [⟨"AA", "JFK", "LAX", "Y", 0, none, "evil"⟩] ∧
    (⟨"AA", "JFK", "LAX", "Y", 0, none, "evil"⟩ : FlightRoute).Provider ≠
      "provider1" := by
  exact ⟨rfl, by decide⟩

/-- Claim C7 (amended): the legacy `BaseProvider` adapters stamp
`provider` with the adapter's name on every surviving record (any
upstream value is overwritten); the resty-generation adapter instead
returns the upstream-decoded routes unchanged on a cache miss, so there an
upstream provider value does survive. -/
theorem claim_C7_provider_stamping :
    (∀ (name : String) (routes : List FlightRoute),
      ∀ r ∈ validateAndProcessRoutes name routes, r.Provider = name) ∧
    (∀ (c : SpecCache (List FlightRoute)) (now ttl : Int)
        (rs : List FlightRoute),
      c.Enabled = true → specCacheGet c now "provider1_routes" = none →
      (routesFromProvider1 c now ttl (.ok (200, rs))).1 = .ok rs) := by
  constructor
  · intro name routes
    induction routes with
    | nil => intro r hr; simp [validateAndProcessRoutes] at hr
    | cons x rest ih =>
      intro r hr
      rw [validateAndProcessRoutes] at hr
      by_cases hv : (validateRoute x).isSome
      · rw [if_pos hv] at hr
        exact ih r hr
      · rw [if_neg hv] at hr
        rcases List.mem_cons.mp hr with h | h
        · rw [h]
        · exact ih r h
  · intro c now ttl rs hen hmiss
    rw [routesFromProvider1, specGetOrLoad.eq_def, if_neg (by simp [hen]),
      hmiss]
    rfl

/-- Claim C7 witness: a record arriving with an upstream provider tag
`"x"` leaves the legacy adapter stamped `"provider1"`. -/
theorem claim_C7_witness :
    (⟨"AA", "JFK", "LAX", "Y", 0, none, "provider1"⟩ : FlightRoute).Provider =
      "provider1" :=
  claim_C7_provider_stamping.1 "provider1"
    [⟨"AA", "JFK", "LAX", "Y", 0, none, "x"⟩]
    ⟨"AA", "JFK", "LAX", "Y", 0, none, "provider1"⟩ (by decide)

/-- Claim C8 (counterexample): the legacy `Provider1.GetRoutes` encodes
the caller's filters into its cache key, so two different filter values
produce two different keys, refuting the claim that the adapter computes
the same cache key for any two filter values. -/
theorem claim_C8_counterexample :
    provider1CacheKey ⟨"AA", "", "", none⟩ ≠
      provider1CacheKey ⟨"UA", "", "", none⟩ := by
  decide

theorem specCacheGet_two_entries_fst (rs1 rs2 : List FlightRoute)
    (now' e1 e2 : Int) (h : now' ≤ e1) :
    specCacheGet
      (⟨true, [("provider2_routes", rs2, e2), ("provider1_routes", rs1, e1)]⟩ :
        SpecCache (List FlightRoute)) now' "provider1_routes" = some rs1 := by
  unfold specCacheGet
  rw [List.find?_cons_of_neg _ (by simp),
    List.find?_cons_of_pos _ (by simp)]
  simp [h]

theorem specCacheGet_two_entries_snd (rs1 rs2 : List FlightRoute)
    (now' e1 e2 : Int) (h : now' ≤ e2) :
    specCacheGet
      (⟨true, [("provider2_routes", rs2, e2), ("provider1_routes", rs1, e1)]⟩ :
        SpecCache (List FlightRoute)) now' "provider2_routes" = some rs2 := by
  unfold specCacheGet
  rw [List.find?_cons_of_pos _ (by simp)]
  simp [h]

theorem routesFromProvider1_hit (c : SpecCache (List FlightRoute))
    (now ttl : Int) (rs : List FlightRoute)
    (resp : Except String (Int × List FlightRoute))
    (hen : c.Enabled = true)
    (hget : specCacheGet c now "provider1_routes" = some rs) :
    routesFromProvider1 c now ttl resp = (.ok rs, c, false) := by
  rw [routesFromProvider1, specGetOrLoad.eq_def, if_neg (by simp [hen]),
    hget]

theorem routesFromProvider2_hit (c : SpecCache (List FlightRoute))
    (now ttl : Int) (rs : List FlightRoute)
    (resp : Except String (Int × List FlightRoute))
    (hen : c.Enabled = true)
    (hget : specCacheGet c now "provider2_routes" = some rs) :
    routesFromProvider2 c now ttl resp = (.ok rs, c, false) := by
  rw [routesFromProvider2, specGetOrLoad.eq_def, if_neg (by simp [hen]),
    hget]

/-- Claim C8 (amended): in the resty generation the cache keys are the
constants `"provider1_routes"`/`"provider2_routes"`, so the fetch's cache
state and loader invocations are entirely independent of the caller's
filters, and a provider response cached by one request is reused by a
later differently-filtered request inside the TTL window (no loader runs;
the second request's routes are the cached payloads with its own filters
applied).  The legacy `Provider1` adapter instead embeds the filter values
in its cache key, so distinct filters there use distinct cache entries. -/
theorem claim_C8_filter_independent_cache :
    (∀ (f1 f2 : RouteFiltersV2) (c : SpecCache (List FlightRoute))
        (now t1 t2 : Int)
        (resp1 resp2 : Except String (Int × List FlightRoute)),
      (getRoutesV2 f1 c now t1 t2 resp1 resp2).cache =
        (getRoutesV2 f2 c now t1 t2 resp1 resp2).cache ∧
      (getRoutesV2 f1 c now t1 t2 resp1 resp2).load1 =
        (getRoutesV2 f2 c now t1 t2 resp1 resp2).load1 ∧
      (getRoutesV2 f1 c now t1 t2 resp1 resp2).load2 =
        (getRoutesV2 f2 c now t1 t2 resp1 resp2).load2) ∧
    (∀ (f1 f2 : RouteFiltersV2) (rs1 rs2 : List FlightRoute)
        (now now' t1 t2 : Int)
        (resp1 resp2 : Except String (Int × List FlightRoute)),
      now' ≤ now + t1 → now' ≤ now + t2 →
      (getRoutesV2 f2
          (getRoutesV2 f1 ⟨true, []⟩ now t1 t2
            (.ok (200, rs1)) (.ok (200, rs2))).cache
          now' t1 t2 resp1 resp2).load1 = false ∧
      (getRoutesV2 f2
          (getRoutesV2 f1 ⟨true, []⟩ now t1 t2
            (.ok (200, rs1)) (.ok (200, rs2))).cache
          now' t1 t2 resp1 resp2).load2 = false ∧
      (getRoutesV2 f2
          (getRoutesV2 f1 ⟨true, []⟩ now t1 t2
            (.ok (200, rs1)) (.ok (200, rs2))).cache
          now' t1 t2 resp1 resp2).routes =
        applyFilters f2 (rs1 ++ rs2)) ∧
    provider1CacheKey ⟨"AA", "", "", none⟩ ≠
      provider1CacheKey ⟨"UA", "", "", none⟩ := by
  refine ⟨?_, ?_, by decide⟩
  · intro f1 f2 c now t1 t2 resp1 resp2
    exact ⟨rfl, rfl, rfl⟩
  · intro f1 f2 rs1 rs2 now now' t1 t2 resp1 resp2 h1 h2
    have hcache : (getRoutesV2 f1 ⟨true, []⟩ now t1 t2
        (.ok (200, rs1)) (.ok (200, rs2))).cache =
        ⟨true, [("provider2_routes", rs2, now + t2),
                ("provider1_routes", rs1, now + t1)]⟩ := rfl
    rw [hcache]
    have ho1 := routesFromProvider1_hit
      ⟨true, [("provider2_routes", rs2, now + t2),
              ("provider1_routes", rs1, now + t1)]⟩
      now' t1 rs1 resp1 rfl
      (specCacheGet_two_entries_fst rs1 rs2 now' (now + t1) (now + t2) h1)
    have ho2 := routesFromProvider2_hit
      ⟨true, [("provider2_routes", rs2, now + t2),
              ("provider1_routes", rs1, now + t1)]⟩
      now' t2 rs2 resp2 rfl
      (specCacheGet_two_entries_snd rs1 rs2 now' (now + t1) (now + t2) h2)
    rw [getRoutesV2, ho1, ho2]
    exact ⟨rfl, rfl, rfl⟩

/-- Claim C8 witness: a concrete pair of differently-filtered requests
within the TTL window; the second performs no loads and returns the cached
payloads under its own filters. -/
theorem claim_C8_witness :
    (getRoutesV2 ⟨"AA", "", "", none, 0, 0⟩
        (getRoutesV2 ⟨"", "", "", none, 0, 0⟩ ⟨true, []⟩ 0 60 60
          (.ok (200, [⟨"AA", "JFK", "LAX", "Y", 0, none, "provider1"⟩]))
          (.ok (200, [⟨"UA", "JFK", "SFO", "N", 1, none, "provider2"⟩]))).cache
        30 60 60 (.error "down") (.error "down")).load1 = false ∧
    (getRoutesV2 ⟨"AA", "", "", none, 0, 0⟩
        (getRoutesV2 ⟨"", "", "", none, 0, 0⟩ ⟨true, []⟩ 0 60 60
          (.ok (200, [⟨"AA", "JFK", "LAX", "Y", 0, none, "provider1"⟩]))
          (.ok (200, [⟨"UA", "JFK", "SFO", "N", 1, none, "provider2"⟩]))).cache
        30 60 60 (.error "down") (.error "down")).load2 = false ∧
    (getRoutesV2 ⟨"AA", "", "", none, 0, 0⟩
        (getRoutesV2 ⟨"", "", "", none, 0, 0⟩ ⟨true, []⟩ 0 60 60
          (.ok (200, [⟨"AA", "JFK", "LAX", "Y", 0, none, "provider1"⟩]))
          (.ok (200, [⟨"UA", "JFK", "SFO", "N", 1, none, "provider2"⟩]))).cache
        30 60 60 (.error "down") (.error "down")).routes =
      applyFilters ⟨"AA", "", "", none, 0, 0⟩
        ([⟨"AA", "JFK", "LAX", "Y", 0, none, "provider1"⟩] ++
         [⟨"UA", "JFK", "SFO", "N", 1, none, "provider2"⟩]) :=
  claim_C8_filter_independent_cache.2.1 ⟨"", "", "", none, 0, 0⟩
    ⟨"AA", "", "", none, 0, 0⟩
    [⟨"AA", "JFK", "LAX", "Y", 0, none, "provider1"⟩]
    [⟨"UA", "JFK", "SFO", "N", 1, none, "provider2"⟩]
    0 30 60 60 (.error "down") (.error "down") (by decide) (by decide)

/-- Claim C10: a disabled cache's `GetOrLoad` returns `(nil, nil)` without
invoking the loader, and consequently the resty provider fetch built on
`GetOrLoad` performs no upstream request and surfaces the
`unexpected data type from cache` error instead of routes. -/
theorem claim_C10_disabled_cache :
    (∀ (α : Type) (c : InMemoryCache α) (now : Int) (key : String)
        (loader : Except String α),
      c.cfg.Enabled = false →
      getOrLoad c now key loader = (.ok none, c, false)) ∧
    (∀ (c : SpecCache (List FlightRoute)) (now ttl : Int)
        (resp : Except String (Int × List FlightRoute)),
      c.Enabled = false →
      routesFromProvider1 c now ttl resp =
        (.error "unexpected data type from cache for provider1 routes",
         c, false)) := by
  constructor
  · intro α c now key loader hdis
    rw [getOrLoad.eq_def, if_pos hdis]
  · intro c now ttl resp hdis
    rw [routesFromProvider1, specGetOrLoad.eq_def, if_pos hdis]

/-- Claim C10 witness: a concrete disabled cache yields `(nil, nil)` from
`GetOrLoad` and the `unexpected data type` failure from the provider
fetch, with the loader never invoked. -/
theorem claim_C10_witness :
    getOrLoad (α := Nat) ⟨⟨false, 5⟩, []⟩ 0 "provider1_routes" (.ok 7) =
      (.ok none, ⟨⟨false, 5⟩, []⟩, false) ∧
    routesFromProvider1 ⟨false, []⟩ 0 60
        (.ok (200, [⟨"AA", "JFK", "LAX", "Y", 0, none, "provider1"⟩])) =
      (.error "unexpected data type from cache for provider1 routes",
       ⟨false, []⟩, false) :=
  ⟨claim_C10_disabled_cache.1 Nat ⟨⟨false, 5⟩, []⟩ 0 "provider1_routes"
      (.ok 7) rfl,
   claim_C10_disabled_cache.2 ⟨false, []⟩ 0 60
      (.ok (200, [⟨"AA", "JFK", "LAX", "Y", 0, none, "provider1"⟩])) rfl⟩

/-- Retry loop of `BaseProvider.makeRequest` (legacy generation, lines
90-113): `remaining` counts loop iterations left out of `config.Retries`,
`i` the transport invocations made so far, `lastErr` the last failure.
Exponential-backoff waits and context cancellation are timing-only and
elided (the context is never cancelled in this model).  Returns the
result together with the number of transport invocations. -/
def makeRequestLoop {α : Type} (get : Nat → Except String α) :
    Nat → Nat → Option String → Except String α × Nat
  | 0, i, lastErr =>
    (.error ("all retry attempts failed: " ++ lastErr.getD "<nil>"), i)
  | remaining + 1, i, _ =>
    match get i with
    | .ok d => (.ok d, i + 1)
    | .error e => makeRequestLoop get remaining (i + 1) (some e)

/-- `BaseProvider.makeRequest`: up to `retries` loop iterations in total
(`for i := 0; i < p.config.Retries; i++`), each making one transport
call; the first success returns, exhaustion reports the last error. -/
def makeRequest {α : Type} (retries : Nat) (get : Nat → Except String α) :
    Except String α × Nat :=
  makeRequestLoop get retries 0 none

theorem makeRequestLoop_count {α : Type} (get : Nat → Except String α) :
    ∀ (remaining i : Nat) (lastErr : Option String),
      (makeRequestLoop get remaining i lastErr).2 ≤ i + remaining := by
  intro remaining
  induction remaining with
  | zero => intro i lastErr; simp [makeRequestLoop]
  | succ n ih =>
    intro i lastErr
    rw [makeRequestLoop]
    cases get i with
    | ok d => simp
    | error e =>
      have := ih (i + 1) (some e)
      simp only []
      omega

/-- Claim C6 (counterexample): `config.Retries` bounds the *total* number
of attempts, not the number of additional retries.  With `Retries = 1`
and an upstream that fails once then succeeds, the fetch makes exactly one
transport call and fails, where the claim predicts success after `1 + 1`
invocations. -/
theorem claim_C6_counterexample :
    makeRequest 1
        (fun i => if i = 0 then (Except.error "boom" : Except String Nat)
                  else .ok 7) =
      (.error "all retry attempts failed: boom", 1) ∧
    (makeRequest 1
        (fun i => if i = 0 then (Except.error "boom" : Except String Nat)
                  else .ok 7)).1 ≠ .ok 7 := by
  refine ⟨rfl, fun h => ?_⟩
  exact Except.noConfusion h

/-- Claim C6 (amended): the transport is invoked at most `retries` times
in total per fetch (the configured count bounds all attempts, the first
included); whenever `retries ≥ 2`, an upstream that fails on the first
attempt and succeeds on the second yields a successful fetch with exactly
2 transport invocations. -/
theorem claim_C6_retry_attempts {α : Type} (retries : Nat)
    (get : Nat → Except String α) :
    (makeRequest retries get).2 ≤ retries ∧
    (∀ (e : String) (d : α), 2 ≤ retries →
      get 0 = .error e → get 1 = .ok d →
      makeRequest retries get = (.ok d, 2)) := by
  constructor
  · have := makeRequestLoop_count get retries 0 none
    simpa [makeRequest] using this
  · intro e d hr h0 h1
    obtain ⟨k, rfl⟩ : ∃ k, retries = k + 2 :=
      ⟨retries - 2, by omega⟩
    show makeRequestLoop get ((k + 1) + 1) 0 none = (.ok d, 2)
    rw [makeRequestLoop, h0]
    show makeRequestLoop get (k + 1) (0 + 1) (some e) = (.ok d, 2)
    rw [makeRequestLoop, h1]

/-- Claim C6 witness: three configured attempts, failure then success —
the fetch succeeds with exactly two transport invocations. -/
theorem claim_C6_witness :
    makeRequest 3
        (fun i => if i = 0 then (Except.error "boom" : Except String Nat)
                  else .ok 7) =
      (.ok 7, 2) :=
  (claim_C6_retry_attempts 3
      (fun i => if i = 0 then (Except.error "boom" : Except String Nat)
                else .ok 7)).2
    "boom" 7 (by decide) rfl rfl
